import Mathlib

/-!
Shallow embedding of `src/sync/gitlab.go` from the pet repository: a GitLab
Snippets synchronization client.  The remote service (the go-gitlab library's
HTTP layer) is modelled as an oracle (`Transport`) describing what each request
would return; every Go function of the file is translated into a pure Lean
function over that oracle, recording the list of API calls it issues.  Error
strings produced with `fmt.Errorf`/`errors.Wrapf` are modelled as a structured
error type whose constructors carry exactly the data interpolated into the Go
message.  Nil-pointer dereferences that the Go code can perform are made
explicit as a `nilDeref` outcome.
-/

namespace PetSync

/-- Modelled from the spec: the synchronization payload (the sync package's
`Snippet` struct, whose defining file is not under src/): textual `Content` and
an `UpdatedAt` last-modification time.  Time is modelled as a natural-number
timestamp; Go's zero value `Snippet{}` is empty content with timestamp 0. -/
structure Snippet where
  Content : String
  UpdatedAt : Nat
  deriving Repr, DecidableEq

/-- The GitLab section of the configuration record (`config.Conf.GitLab`),
read-only to the client.  Exactly the fields `src/sync/gitlab.go` reads. -/
structure GitLabConfig where
  AccessToken : String
  Url : String
  SkipSsl : Bool
  ID : String
  FileName : String
  Visibility : String
  deriving Repr, DecidableEq

/-- Process environment: the value of the `PET_GITLAB_ACCESS_TOKEN` variable.
`os.Getenv` yields the empty string when the variable is unset, so an unset
variable is modelled as `""`. -/
structure Env where
  petGitlabAccessToken : String
  deriving Repr, DecidableEq

/-- Structured model of the error values produced in `src/sync/gitlab.go`.
Each constructor records the data interpolated into the corresponding Go
message; `cause` fields hold the wrapped underlying error (`errors.Wrapf`). -/
inductive SyncError where
  /-- `NewGitLabClient`: "access_token is empty. Go https://gitlab.com/... ". -/
  | tokenNotFound : SyncError
  /-- `NewGitLabClient`: "Invalid GitLab Snippet ID: %d" wrapping the Atoi
  error; records the unparsable identifier string. -/
  | invalidID (idField : String) : SyncError
  /-- `GetSnippet`, 404 branch: "No GitLab Snippet ID (%d)" wrapping the
  request error. -/
  | notFound (id : Int) (cause : String) : SyncError
  /-- `GetSnippet`, non-404 failure: "Failed to get GitLab Snippet (ID: %d)". -/
  | failedGet (id : Int) (cause : String) : SyncError
  /-- `GetSnippet`, filename mismatch:
  "No snippet file in GitLab Snippet (ID: %d)". -/
  | noMatchingFile (id : Int) : SyncError
  /-- `GetSnippet`: "Failed to get GitLab Snippet content (ID: %d)". -/
  | failedGetContent (id : Int) (cause : String) : SyncError
  /-- `GetSnippet`: "%s is empty". -/
  | emptyFile (filename : String) : SyncError
  /-- `NewGitLabClient`: "Failed to create GitLab client: %d" wrapping the
  `gitlab.NewClient` error.  (The `%d` interpolates the `id` local, which is
  always still `0` at that site — identity resolution happens later.) -/
  | failedNewClient (cause : String) : SyncError
  /-- `createSnippet` / `UploadSnippet`: "Failed to create GitLab Snippet".
  (Go wraps this context twice, in `createSnippet` and again in
  `UploadSnippet`; the doubled identical context is collapsed here.) -/
  | failedCreate (cause : String) : SyncError
  /-- `updateSnippet` / `UploadSnippet`: "Failed to update GitLab Snippet". -/
  | failedUpdate (cause : String) : SyncError
  deriving Repr, DecidableEq

/-- Decimal value of a digit character, as `strconv` accepts it. -/
def digitVal (c : Char) : Option Nat :=
  if '0' ≤ c ∧ c ≤ '9' then some (c.toNat - '0'.toNat) else none

/-- Accumulate decimal digits; any non-digit character is a syntax error. -/
def parseDigitsAux : List Char → Nat → Option Nat
  | [], acc => some acc
  | c :: cs, acc =>
    match digitVal c with
    | none => none
    | some d => parseDigitsAux cs (acc * 10 + d)

/-- Go's `strconv.Atoi`: optional sign followed by one or more decimal digits,
checked against the 64-bit signed range.  `none` where Go returns a non-nil
error (empty string, syntax error, or range error). -/
def Atoi (s : String) : Option Int :=
  let p : Bool × List Char :=
    match s.data with
    | '+' :: rest => (false, rest)
    | '-' :: rest => (true, rest)
    | cs => (false, cs)
  match p with
  | (_, []) => none
  | (neg, cs) =>
    match parseDigitsAux cs 0 with
    | none => none
    | some n =>
      let v : Int := if neg then -(n : Int) else (n : Int)
      if -(2 ^ 63) ≤ v ∧ v < 2 ^ 63 then some v else none

/-- `getGitlabAccessToken`: the configuration token when non-empty, else the
environment variable when non-empty, else an error.  (Go returns
`errors.New("GitLab AccessToken not found in any source")`, which
`NewGitLabClient` replaces with its instructional message; both are the
`tokenNotFound` error here.) -/
def getGitlabAccessToken (conf : GitLabConfig) (env : Env) :
    Except SyncError String :=
  if conf.AccessToken ≠ "" then Except.ok conf.AccessToken
  else if env.petGitlabAccessToken ≠ "" then Except.ok env.petGitlabAccessToken
  else Except.error SyncError.tokenNotFound

/-- The `http.Client` as configured by the factory: only the TLS-verification
policy is observable. -/
structure HttpClientCfg where
  insecureSkipVerify : Bool
  deriving Repr, DecidableEq

/-- The assembled `*gitlab.Client`: token, base URL and HTTP client
configuration. -/
structure GitlabAPIClient where
  token : String
  baseUrl : String
  httpClient : HttpClientCfg
  deriving Repr, DecidableEq

/-- Modelled from the spec: the go-gitlab library's `gitlab.NewClient` (third
party, not in this repository) performs no I/O and can fail — "Failure to
construct (e.g. malformed endpoint) is a fatal error wrapping the underlying
cause" (spec 4.1).  Which base-URL strings its URL parsing rejects is a
library detail, supplied as an oracle: `newClientErr u = some cause` when the
library fails on base URL `u` with that cause. -/
structure GitlabLib where
  newClientErr : String → Option String

/-- `gitlab.NewClient(accessToken, gitlab.WithBaseURL(u),
gitlab.WithHTTPClient(h))`: fails exactly where the library's oracle says the
base URL is rejected, otherwise assembles the client value. -/
def gitlabNewClient (lib : GitlabLib) (accessToken : String) (u : String)
    (h : HttpClientCfg) : Except String GitlabAPIClient :=
  match lib.newClientErr u with
  | some cause => Except.error cause
  | none => Except.ok { token := accessToken, baseUrl := u, httpClient := h }

/-- `GitLabClient` of `src/sync/gitlab.go`: the API client and the snippet
identity (`ID = 0` means unset). -/
structure GitLabClient where
  Client : GitlabAPIClient
  ID : Int
  deriving Repr, DecidableEq

/-- One network round-trip to the GitLab Snippets API. -/
inductive NetCall where
  | getMeta (id : Int)
  | getContent (id : Int)
  | create
  | update (id : Int)
  deriving Repr, DecidableEq

/-- Remote snippet metadata as returned by `Snippets.GetSnippet`: the stored
filename and the `UpdatedAt` field, a `*time.Time` that may be nil. -/
structure SnippetMeta where
  FileName : String
  UpdatedAt : Option Nat
  deriving Repr, DecidableEq

/-- The HTTP response accompanying a go-gitlab call; only `StatusCode` is
read by the code under src/. -/
structure HttpResponse where
  StatusCode : Nat
  deriving Repr, DecidableEq

/-- Result triple of `Snippets.GetSnippet(id)`: the snippet metadata (a
pointer, possibly nil), the HTTP response (a pointer, possibly nil — absent on
transport-level failures), and the error. -/
structure MetaResult where
  snippet : Option SnippetMeta
  response : Option HttpResponse
  err : Option String
  deriving Repr, DecidableEq

/-- Result of `Snippets.SnippetContent(id)`: the payload bytes (as a string;
Go's `string(nil)` is `""`) and the error. -/
structure ContentResult where
  content : String
  err : Option String
  deriving Repr, DecidableEq

/-- Result of `Snippets.CreateSnippet(opt)`: the created snippet (a pointer —
`ret.ID` is dereferenced without a nil check) and the error. -/
structure CreateResult where
  ret : Option Int
  err : Option String
  deriving Repr, DecidableEq

/-- `gitlab.CreateSnippetOptions` as populated by `createSnippet`. -/
structure CreateSnippetOptions where
  Title : String
  FileName : String
  Description : String
  Content : String
  Visibility : String
  deriving Repr, DecidableEq

/-- `gitlab.UpdateSnippetOptions` as populated by `updateSnippet`. -/
structure UpdateSnippetOptions where
  Title : String
  FileName : String
  Description : String
  Content : String
  Visibility : String
  deriving Repr, DecidableEq

/-- Oracle for the remote GitLab Snippets API: what each request of the
go-gitlab client would return.  A fixed oracle models one remote-service
state; the client's observable behaviour is a function of it. -/
structure Transport where
  GetSnippet : Int → MetaResult
  SnippetContent : Int → ContentResult
  CreateSnippet : CreateSnippetOptions → CreateResult
  UpdateSnippet : Int → UpdateSnippetOptions → Option String

/-- Outcome of running a Go function body: a normal return, an error return,
or a crash at a nil-pointer dereference. -/
inductive Outcome (α : Type) where
  | ok (a : α)
  | err (e : SyncError)
  | nilDeref
  deriving Repr, DecidableEq

/-- `NewGitLabClient`: resolve the token, call `gitlab.NewClient` on the
configured (or default) URL with the TLS policy (its failure is the fatal
"Failed to create GitLab client" error), then resolve the identity from the
`ID` configuration field.  The second component records the API calls issued
during construction — the body makes none.  The `fmt.Println` of an
overridden URL and the spinner are presentation-only and omitted. -/
def NewGitLabClient (lib : GitlabLib) (conf : GitLabConfig) (env : Env) :
    Except SyncError GitLabClient × List NetCall :=
  match getGitlabAccessToken conf env with
  | Except.error _ => (Except.error SyncError.tokenNotFound, [])
  | Except.ok accessToken =>
    let u := if conf.Url ≠ "" then conf.Url else "https://git.mydomain.com/api/v4"
    let h : HttpClientCfg := { insecureSkipVerify := conf.SkipSsl }
    match gitlabNewClient lib accessToken u h with
    | Except.error cause => (Except.error (SyncError.failedNewClient cause), [])
    | Except.ok c =>
      if conf.ID = "" then
        (Except.ok { Client := c, ID := 0 }, [])
      else
        match Atoi conf.ID with
        | none => (Except.error (SyncError.invalidID conf.ID), [])
        | some n => (Except.ok { Client := c, ID := n }, [])

/-- `GetSnippet`: return the empty snippet when the identity is unset,
otherwise fetch metadata (dereferencing `res.StatusCode` on the error branch
and `snippet.FileName` / `*snippet.UpdatedAt` on the success branch without
nil checks), check the filename against the configuration, fetch the content
and reject an empty payload.  The second component lists the API calls
issued. -/
def GitLabClient.GetSnippet (g : GitLabClient) (conf : GitLabConfig)
    (t : Transport) : Outcome Snippet × List NetCall :=
  if g.ID = 0 then (Outcome.ok { Content := "", UpdatedAt := 0 }, [])
  else
    let r := t.GetSnippet g.ID
    match r.err with
    | some e =>
      match r.response with
      | none => (Outcome.nilDeref, [NetCall.getMeta g.ID])
      | some res =>
        if res.StatusCode = 404 then
          (Outcome.err (SyncError.notFound g.ID e), [NetCall.getMeta g.ID])
        else
          (Outcome.err (SyncError.failedGet g.ID e), [NetCall.getMeta g.ID])
    | none =>
      match r.snippet with
      | none => (Outcome.nilDeref, [NetCall.getMeta g.ID])
      | some snip =>
        let filename := conf.FileName
        if snip.FileName ≠ filename then
          (Outcome.err (SyncError.noMatchingFile g.ID), [NetCall.getMeta g.ID])
        else
          let cr := t.SnippetContent g.ID
          match cr.err with
          | some e =>
            (Outcome.err (SyncError.failedGetContent g.ID e),
             [NetCall.getMeta g.ID, NetCall.getContent g.ID])
          | none =>
            let content := cr.content
            if content = "" then
              (Outcome.err (SyncError.emptyFile filename),
               [NetCall.getMeta g.ID, NetCall.getContent g.ID])
            else
              match snip.UpdatedAt with
              | none =>
                (Outcome.nilDeref,
                 [NetCall.getMeta g.ID, NetCall.getContent g.ID])
              | some ts =>
                (Outcome.ok { Content := content, UpdatedAt := ts },
                 [NetCall.getMeta g.ID, NetCall.getContent g.ID])

/-- `createSnippet`: build the create options from the configuration and
submit.  On success the new snippet's `ID` is returned (Go's `-1` on the error
return is carried by the error outcome itself). -/
def GitLabClient.createSnippet (g : GitLabClient) (conf : GitLabConfig)
    (t : Transport) (content : String) : Outcome Int × List NetCall :=
  let opt : CreateSnippetOptions :=
    { Title := "pet-snippet", FileName := conf.FileName,
      Description := "Snippet file generated by pet", Content := content,
      Visibility := conf.Visibility }
  let cr := t.CreateSnippet opt
  match cr.err with
  | some e => (Outcome.err (SyncError.failedCreate e), [NetCall.create])
  | none =>
    match cr.ret with
    | none => (Outcome.nilDeref, [NetCall.create])
    | some retID => (Outcome.ok retID, [NetCall.create])

/-- `updateSnippet`: build the update options from the configuration and
submit against the client's identity. -/
def GitLabClient.updateSnippet (g : GitLabClient) (conf : GitLabConfig)
    (t : Transport) (content : String) : Option SyncError × List NetCall :=
  let opt : UpdateSnippetOptions :=
    { Title := "pet-snippet", FileName := conf.FileName,
      Description := "Snippet file generated by pet", Content := content,
      Visibility := conf.Visibility }
  match t.UpdateSnippet g.ID opt with
  | some e => (some (SyncError.failedUpdate e), [NetCall.update g.ID])
  | none => (none, [NetCall.update g.ID])

/-- What a call to `UploadSnippet` produces: its outcome, the snippet
identities printed to standard output (`fmt.Printf("GitLab Snippet ID: %d")`),
and the API calls issued. -/
structure UploadResult where
  outcome : Outcome Unit
  printed : List Int
  calls : List NetCall
  deriving Repr, DecidableEq

/-- `UploadSnippet`: create when the identity is unset (printing the newly
assigned identity on success), update otherwise.  The receiver is a value, so
nothing the body does can change the caller's client. -/
def GitLabClient.UploadSnippet (g : GitLabClient) (conf : GitLabConfig)
    (t : Transport) (content : String) : UploadResult :=
  if g.ID = 0 then
    match g.createSnippet conf t content with
    | (Outcome.ok id, calls) =>
      { outcome := Outcome.ok (), printed := [id], calls := calls }
    | (Outcome.err e, calls) =>
      { outcome := Outcome.err e, printed := [], calls := calls }
    | (Outcome.nilDeref, calls) =>
      { outcome := Outcome.nilDeref, printed := [], calls := calls }
  else
    match g.updateSnippet conf t content with
    | (some e, calls) => { outcome := Outcome.err e, printed := [], calls := calls }
    | (none, calls) => { outcome := Outcome.ok (), printed := [], calls := calls }

/-- An operation a caller can invoke on a client. -/
inductive Op where
  | fetch
  | push (content : String)
  deriving Repr, DecidableEq

/-- Go method-call semantics for a sequence of calls on one client variable:
`GetSnippet` and `UploadSnippet` take value receivers (each call works on a
copy), so after each call the caller's variable holds exactly what it held
before; the calls' network traffic is concatenated. -/
def runOps (conf : GitLabConfig) (t : Transport) :
    GitLabClient → List Op → GitLabClient × List NetCall
  | g, [] => (g, [])
  | g, op :: rest =>
    let calls :=
      match op with
      | Op.fetch => (g.GetSnippet conf t).2
      | Op.push c => (g.UploadSnippet conf t c).calls
    let res := runOps conf t g rest
    (res.1, calls ++ res.2)

/-! ## Concrete fixtures used by witnesses and counterexamples -/

/-- A configuration with a token and an unset (empty) identity field. -/
def confUnset : GitLabConfig :=
  { AccessToken := "tok", Url := "", SkipSsl := false, ID := "",
    FileName := "pet-snippet.toml", Visibility := "private" }

/-- A configuration with identity field "7". -/
def confID7 : GitLabConfig :=
  { AccessToken := "tok", Url := "", SkipSsl := false, ID := "7",
    FileName := "pet-snippet.toml", Visibility := "private" }

/-- A configuration whose identity field does not parse as an integer. -/
def confBadID : GitLabConfig :=
  { AccessToken := "tok", Url := "", SkipSsl := false, ID := "abc",
    FileName := "pet-snippet.toml", Visibility := "private" }

/-- A configuration with token `T1` set (environment fixture `envT2` supplies
`T2`). -/
def confT1 : GitLabConfig :=
  { AccessToken := "T1", Url := "", SkipSsl := false, ID := "",
    FileName := "pet-snippet.toml", Visibility := "private" }

/-- A configuration with no access token. -/
def confNoTok : GitLabConfig :=
  { AccessToken := "", Url := "", SkipSsl := false, ID := "",
    FileName := "pet-snippet.toml", Visibility := "private" }

/-- A configuration with a malformed endpoint URL and an empty identity
field. -/
def confBadUrl : GitLabConfig :=
  { AccessToken := "tok", Url := "://x", SkipSsl := false, ID := "",
    FileName := "pet-snippet.toml", Visibility := "private" }

/-- A library oracle accepting every base URL (all well-formed fixture URLs
here are accepted by the real library). -/
def libOK : GitlabLib := { newClientErr := fun _ => none }

/-- A library oracle rejecting the malformed base URL "://x" — Go's
`url.Parse` fails on it with "missing protocol scheme" — and accepting every
other URL. -/
def libStrict : GitlabLib :=
  { newClientErr := fun u =>
      if u = "://x" then some "missing protocol scheme" else none }

/-- Environment with `PET_GITLAB_ACCESS_TOKEN=T2`. -/
def envT2 : Env := { petGitlabAccessToken := "T2" }

/-- Environment with the token variable unset. -/
def envNone : Env := { petGitlabAccessToken := "" }

/-- A client with unset identity. -/
def clientUnset : GitLabClient :=
  { Client := { token := "tok", baseUrl := "https://git.mydomain.com/api/v4",
                httpClient := { insecureSkipVerify := false } },
    ID := 0 }

/-- A client bound to identity 7. -/
def client7 : GitLabClient :=
  { Client := { token := "tok", baseUrl := "https://git.mydomain.com/api/v4",
                httpClient := { insecureSkipVerify := false } },
    ID := 7 }

/-- A remote-service oracle whose create endpoint assigns identity 42 and
whose remaining endpoints are unreachable (any fetch or update fails). -/
def transportCreate42 : Transport :=
  { GetSnippet := fun _ =>
      { snippet := none, response := none, err := some "unreachable" },
    SnippetContent := fun _ => { content := "", err := some "unreachable" },
    CreateSnippet := fun _ => { ret := some 42, err := none },
    UpdateSnippet := fun _ _ => some "unreachable" }

/-- An oracle answering 404 to the metadata request. -/
def transport404 : Transport :=
  { GetSnippet := fun _ =>
      { snippet := none, response := some { StatusCode := 404 },
        err := some "404 Not Found" },
    SnippetContent := fun _ => { content := "", err := some "unreachable" },
    CreateSnippet := fun _ => { ret := none, err := some "unreachable" },
    UpdateSnippet := fun _ _ => some "unreachable" }

/-- An oracle answering 500 to the metadata request. -/
def transport500 : Transport :=
  { GetSnippet := fun _ =>
      { snippet := none, response := some { StatusCode := 500 },
        err := some "boom" },
    SnippetContent := fun _ => { content := "", err := some "unreachable" },
    CreateSnippet := fun _ => { ret := none, err := some "unreachable" },
    UpdateSnippet := fun _ _ => some "unreachable" }

/-- An oracle whose metadata request fails at the transport level: an error
with no accompanying HTTP response. -/
def transportNilResponse : Transport :=
  { GetSnippet := fun _ =>
      { snippet := none, response := none, err := some "connection refused" },
    SnippetContent := fun _ => { content := "", err := some "unreachable" },
    CreateSnippet := fun _ => { ret := none, err := some "unreachable" },
    UpdateSnippet := fun _ _ => some "unreachable" }

/-- A healthy oracle: metadata with the configured filename and timestamp 99,
content "hello". -/
def transportOK : Transport :=
  { GetSnippet := fun _ =>
      { snippet := some { FileName := "pet-snippet.toml", UpdatedAt := some 99 },
        response := some { StatusCode := 200 }, err := none },
    SnippetContent := fun _ => { content := "hello", err := none },
    CreateSnippet := fun _ => { ret := none, err := some "unreachable" },
    UpdateSnippet := fun _ _ => none }

/-- An oracle like `transportOK` but serving zero-length content. -/
def transportEmptyContent : Transport :=
  { GetSnippet := fun _ =>
      { snippet := some { FileName := "pet-snippet.toml", UpdatedAt := some 99 },
        response := some { StatusCode := 200 }, err := none },
    SnippetContent := fun _ => { content := "", err := none },
    CreateSnippet := fun _ => { ret := none, err := some "unreachable" },
    UpdateSnippet := fun _ _ => none }

/-- An oracle whose remote object is stored under a different filename. -/
def transportMismatch : Transport :=
  { GetSnippet := fun _ =>
      { snippet := some { FileName := "other.txt", UpdatedAt := some 99 },
        response := some { StatusCode := 200 }, err := none },
    SnippetContent := fun _ => { content := "hello", err := none },
    CreateSnippet := fun _ => { ret := none, err := some "unreachable" },
    UpdateSnippet := fun _ _ => none }

/-- An oracle whose remote metadata carries no last-modified timestamp (nil
`UpdatedAt` pointer), with non-empty content. -/
def transportNoTimestamp : Transport :=
  { GetSnippet := fun _ =>
      { snippet := some { FileName := "pet-snippet.toml", UpdatedAt := none },
        response := some { StatusCode := 200 }, err := none },
    SnippetContent := fun _ => { content := "hello", err := none },
    CreateSnippet := fun _ => { ret := none, err := some "unreachable" },
    UpdateSnippet := fun _ _ => none }

/-! ## Claim theorems -/

/-- C1, counterexample: on a client with unset identity, against a remote
whose create endpoint succeeds (assigning identity 42), a two-push sequence
issues two create calls — not one create and one update as the claim
states. -/
theorem twoPushes_counterexample :
    (runOps confUnset transportCreate42 clientUnset
        [Op.push "a", Op.push "b"]).2 = [NetCall.create, NetCall.create] ∧
    ¬ ((runOps confUnset transportCreate42 clientUnset
          [Op.push "a", Op.push "b"]).2.count NetCall.create = 1 ∧
       (runOps confUnset transportCreate42 clientUnset
          [Op.push "a", Op.push "b"]).2.count (NetCall.update 42) = 1) := by
  decide

/-- C1 (amended): a first `Push` on an unset-identity client returns no error
and prints the newly assigned identity (the externally observable output); the
client's own identity field is not mutated, so a second `Push` on that same
client performs Create again — two create calls and no update call across the
sequence. -/
theorem push_unset_creates_and_prints
    (g : GitLabClient) (conf : GitLabConfig) (t : Transport)
    (c1 c2 : String) (n : Int)
    (h0 : g.ID = 0)
    (hc : ∀ opt, t.CreateSnippet opt = { ret := some n, err := none }) :
    (g.UploadSnippet conf t c1).outcome = Outcome.ok () ∧
    (g.UploadSnippet conf t c1).printed = [n] ∧
    (runOps conf t g [Op.push c1, Op.push c2]).1 = g ∧
    (runOps conf t g [Op.push c1, Op.push c2]).2
      = [NetCall.create, NetCall.create] := by
  simp [GitLabClient.UploadSnippet, GitLabClient.createSnippet, runOps, h0, hc]

/-- C1, witness for the amended theorem at the concrete fixtures. -/
theorem push_unset_creates_and_prints_witness :
    (clientUnset.UploadSnippet confUnset transportCreate42 "a").outcome
        = Outcome.ok () ∧
    (clientUnset.UploadSnippet confUnset transportCreate42 "a").printed = [42] ∧
    (runOps confUnset transportCreate42 clientUnset
        [Op.push "a", Op.push "b"]).1 = clientUnset ∧
    (runOps confUnset transportCreate42 clientUnset
        [Op.push "a", Op.push "b"]).2 = [NetCall.create, NetCall.create] :=
  push_unset_creates_and_prints clientUnset confUnset transportCreate42
    "a" "b" 42 rfl (fun _ => rfl)

/-- C2: on a client with identity 0, `GetSnippet` returns the empty snippet
(empty content, zero timestamp) with no error and issues no network call,
whatever the remote-service oracle would answer. -/
theorem fetch_unset_identity_empty
    (g : GitLabClient) (conf : GitLabConfig) (t : Transport)
    (h : g.ID = 0) :
    g.GetSnippet conf t = (Outcome.ok { Content := "", UpdatedAt := 0 }, []) := by
  simp [GitLabClient.GetSnippet, h]

/-- C2, witness: the unset-identity fixture against an unreachable transport
(every endpoint fails, so any network call would be visible). -/
theorem fetch_unset_identity_empty_witness :
    clientUnset.GetSnippet confUnset transportCreate42
      = (Outcome.ok { Content := "", UpdatedAt := 0 }, []) :=
  fetch_unset_identity_empty clientUnset confUnset transportCreate42 rfl

/-- C3: credential resolution takes the configuration token when non-empty,
else the environment token when non-empty; with both empty the factory fails
with the configuration error having issued no network call. -/
theorem credential_precedence :
    (∀ (conf : GitLabConfig) (env : Env), conf.AccessToken ≠ "" →
        getGitlabAccessToken conf env = Except.ok conf.AccessToken) ∧
    (∀ (conf : GitLabConfig) (env : Env), conf.AccessToken = "" →
        env.petGitlabAccessToken ≠ "" →
        getGitlabAccessToken conf env = Except.ok env.petGitlabAccessToken) ∧
    (∀ (lib : GitlabLib) (conf : GitLabConfig) (env : Env),
        conf.AccessToken = "" → env.petGitlabAccessToken = "" →
        NewGitLabClient lib conf env
          = (Except.error SyncError.tokenNotFound, [])) := by
  refine ⟨?_, ?_, ?_⟩
  · intro conf env h1
    simp [getGitlabAccessToken, h1]
  · intro conf env h1 h2
    simp [getGitlabAccessToken, h1, h2]
  · intro lib conf env h1 h2
    simp [NewGitLabClient, getGitlabAccessToken, h1, h2]

/-- C3, witness: token `T1` beats environment `T2`; `T2` alone is used; with
neither, the factory fails with the token error and an empty call list. -/
theorem credential_precedence_witness :
    getGitlabAccessToken confT1 envT2 = Except.ok "T1" ∧
    getGitlabAccessToken confNoTok envT2 = Except.ok "T2" ∧
    NewGitLabClient libStrict confNoTok envNone
      = (Except.error SyncError.tokenNotFound, []) :=
  ⟨credential_precedence.1 confT1 envT2 (by decide),
   credential_precedence.2.1 confNoTok envT2 rfl (by decide),
   credential_precedence.2.2 libStrict confNoTok envNone rfl rfl⟩

/-- C4: when the metadata request fails with an accompanying 404 response,
`GetSnippet` returns the distinct not-found error carrying the configured
identity; any other failing status is wrapped as the "failed to get" error
carrying the identity; the two error forms are never equal. -/
theorem fetch_404_distinct :
    (∀ (g : GitLabClient) (conf : GitLabConfig) (t : Transport)
        (e : String) (res : HttpResponse), g.ID ≠ 0 →
        (t.GetSnippet g.ID).err = some e →
        (t.GetSnippet g.ID).response = some res →
        res.StatusCode = 404 →
        (g.GetSnippet conf t).1 = Outcome.err (SyncError.notFound g.ID e)) ∧
    (∀ (g : GitLabClient) (conf : GitLabConfig) (t : Transport)
        (e : String) (res : HttpResponse), g.ID ≠ 0 →
        (t.GetSnippet g.ID).err = some e →
        (t.GetSnippet g.ID).response = some res →
        res.StatusCode ≠ 404 →
        (g.GetSnippet conf t).1 = Outcome.err (SyncError.failedGet g.ID e)) ∧
    (∀ (id : Int) (e e2 : String),
        SyncError.notFound id e ≠ SyncError.failedGet id e2) := by
  refine ⟨?_, ?_, ?_⟩
  · intro g conf t e res hid herr hres hst
    simp [GitLabClient.GetSnippet, hid, herr, hres, hst]
  · intro g conf t e res hid herr hres hst
    simp [GitLabClient.GetSnippet, hid, herr, hres, hst]
  · intro id e e2 h
    exact SyncError.noConfusion h

/-- C4, witness: identity 7 against a 404-answering remote yields the
not-found error for 7; against a 500-answering remote, the failed-get
error. -/
theorem fetch_404_distinct_witness :
    (client7.GetSnippet confUnset transport404).1
      = Outcome.err (SyncError.notFound 7 "404 Not Found") ∧
    (client7.GetSnippet confUnset transport500).1
      = Outcome.err (SyncError.failedGet 7 "boom") ∧
    SyncError.notFound 7 "404 Not Found" ≠ SyncError.failedGet 7 "boom" :=
  ⟨fetch_404_distinct.1 client7 confUnset transport404 "404 Not Found"
      { StatusCode := 404 } (by decide) rfl rfl rfl,
   fetch_404_distinct.2.1 client7 confUnset transport500 "boom"
      { StatusCode := 500 } (by decide) rfl rfl (by decide),
   fetch_404_distinct.2.2 7 "404 Not Found" "boom"⟩

/-- C5: when the remote object's stored filename differs from the configured
filename, `GetSnippet` fails with the mismatch error naming the identity,
returns no snippet, and stops after the metadata call (the content request is
never issued). -/
theorem fetch_filename_mismatch
    (g : GitLabClient) (conf : GitLabConfig) (t : Transport)
    (meta : SnippetMeta)
    (hid : g.ID ≠ 0)
    (herr : (t.GetSnippet g.ID).err = none)
    (hmeta : (t.GetSnippet g.ID).snippet = some meta)
    (hfn : meta.FileName ≠ conf.FileName) :
    (g.GetSnippet conf t).1 = Outcome.err (SyncError.noMatchingFile g.ID) ∧
    (∀ s : Snippet, (g.GetSnippet conf t).1 ≠ Outcome.ok s) ∧
    (g.GetSnippet conf t).2 = [NetCall.getMeta g.ID] := by
  simp [GitLabClient.GetSnippet, hid, herr, hmeta, hfn]

/-- C5, witness: identity 7 against a remote storing `other.txt` while the
configuration expects `pet-snippet.toml`. -/
theorem fetch_filename_mismatch_witness :
    (client7.GetSnippet confUnset transportMismatch).1
      = Outcome.err (SyncError.noMatchingFile 7) ∧
    (∀ s : Snippet,
      (client7.GetSnippet confUnset transportMismatch).1 ≠ Outcome.ok s) ∧
    (client7.GetSnippet confUnset transportMismatch).2 = [NetCall.getMeta 7] :=
  fetch_filename_mismatch client7 confUnset transportMismatch
    { FileName := "other.txt", UpdatedAt := some 99 }
    (by decide) rfl rfl (by decide)

/-- C6: with the metadata fetched and the filename matching, a zero-length
payload makes `GetSnippet` fail with the "is empty" error naming the
configured filename, never returning a snippet; a non-empty payload (with the
remote's last-modified time present) yields the snippet built from that
payload and timestamp, with no error. -/
theorem fetch_empty_content_rejected :
    (∀ (g : GitLabClient) (conf : GitLabConfig) (t : Transport)
        (meta : SnippetMeta), g.ID ≠ 0 →
        (t.GetSnippet g.ID).err = none →
        (t.GetSnippet g.ID).snippet = some meta →
        meta.FileName = conf.FileName →
        (t.SnippetContent g.ID).err = none →
        (t.SnippetContent g.ID).content = "" →
        (g.GetSnippet conf t).1 = Outcome.err (SyncError.emptyFile conf.FileName) ∧
        (∀ s : Snippet, (g.GetSnippet conf t).1 ≠ Outcome.ok s)) ∧
    (∀ (g : GitLabClient) (conf : GitLabConfig) (t : Transport)
        (meta : SnippetMeta) (ts : Nat), g.ID ≠ 0 →
        (t.GetSnippet g.ID).err = none →
        (t.GetSnippet g.ID).snippet = some meta →
        meta.FileName = conf.FileName →
        (t.SnippetContent g.ID).err = none →
        (t.SnippetContent g.ID).content ≠ "" →
        meta.UpdatedAt = some ts →
        (g.GetSnippet conf t).1 =
          Outcome.ok { Content := (t.SnippetContent g.ID).content,
                       UpdatedAt := ts }) := by
  constructor
  · intro g conf t meta hid herr hmeta hfn hcerr hc
    simp [GitLabClient.GetSnippet, hid, herr, hmeta, hfn, hcerr, hc]
  · intro g conf t meta ts hid herr hmeta hfn hcerr hc hts
    simp [GitLabClient.GetSnippet, hid, herr, hmeta, hfn, hcerr, hc, hts]

/-- C6, witness: identity 7 against a remote serving empty content fails with
the "is empty" error; against a remote serving "hello" with timestamp 99 it
returns that snippet. -/
theorem fetch_empty_content_rejected_witness :
    (client7.GetSnippet confUnset transportEmptyContent).1
      = Outcome.err (SyncError.emptyFile "pet-snippet.toml") ∧
    (client7.GetSnippet confUnset transportOK).1
      = Outcome.ok { Content := "hello", UpdatedAt := 99 } :=
  ⟨(fetch_empty_content_rejected.1 client7 confUnset transportEmptyContent
      { FileName := "pet-snippet.toml", UpdatedAt := some 99 }
      (by decide) rfl rfl rfl rfl rfl).1,
   fetch_empty_content_rejected.2 client7 confUnset transportOK
      { FileName := "pet-snippet.toml", UpdatedAt := some 99 } 99
      (by decide) rfl rfl rfl rfl (by decide) rfl⟩

/-- C7, counterexample: the token resolves and the identity field is empty,
yet factory construction fails — the configured endpoint URL "://x" is
malformed, so the `gitlab.NewClient` error branch returns the fatal
"Failed to create GitLab client" error instead of a client with identity 0. -/
theorem factory_bad_url_counterexample :
    getGitlabAccessToken confBadUrl envNone = Except.ok "tok" ∧
    confBadUrl.ID = "" ∧
    NewGitLabClient libStrict confBadUrl envNone
      = (Except.error (SyncError.failedNewClient "missing protocol scheme"),
         []) ∧
    (∀ g : GitLabClient,
      (NewGitLabClient libStrict confBadUrl envNone).1 ≠ Except.ok g) := by
  refine ⟨rfl, rfl, rfl, ?_⟩
  intro g h
  exact Except.noConfusion h

/-- C7 (amended): once the token resolves and the library's `NewClient`
accepts the resolved base URL, an empty identity field yields a client with
identity 0; a non-empty field that fails integer parsing is the fatal
invalid-identifier error; a parsed field binds the client to that integer; and
no path of the factory — the construction-failure paths included — issues a
network call. -/
theorem factory_identity_resolution :
    (∀ (lib : GitlabLib) (conf : GitLabConfig) (env : Env) (tok : String),
        getGitlabAccessToken conf env = Except.ok tok →
        lib.newClientErr
          (if conf.Url ≠ "" then conf.Url else "https://git.mydomain.com/api/v4")
          = none →
        conf.ID = "" →
        ∃ g, NewGitLabClient lib conf env = (Except.ok g, []) ∧ g.ID = 0) ∧
    (∀ (lib : GitlabLib) (conf : GitLabConfig) (env : Env) (tok : String),
        getGitlabAccessToken conf env = Except.ok tok →
        lib.newClientErr
          (if conf.Url ≠ "" then conf.Url else "https://git.mydomain.com/api/v4")
          = none →
        conf.ID ≠ "" →
        Atoi conf.ID = none →
        NewGitLabClient lib conf env
          = (Except.error (SyncError.invalidID conf.ID), [])) ∧
    (∀ (lib : GitlabLib) (conf : GitLabConfig) (env : Env) (tok : String)
        (n : Int),
        getGitlabAccessToken conf env = Except.ok tok →
        lib.newClientErr
          (if conf.Url ≠ "" then conf.Url else "https://git.mydomain.com/api/v4")
          = none →
        conf.ID ≠ "" →
        Atoi conf.ID = some n →
        ∃ g, NewGitLabClient lib conf env = (Except.ok g, []) ∧ g.ID = n) ∧
    (∀ (lib : GitlabLib) (conf : GitLabConfig) (env : Env),
        (NewGitLabClient lib conf env).2 = []) := by
  refine ⟨?_, ?_, ?_, ?_⟩
  · intro lib conf env tok htok hurl hid
    simp only [ne_eq, ite_not] at hurl
    simp only [NewGitLabClient, htok]
    simp [gitlabNewClient, hurl, hid]
  · intro lib conf env tok htok hurl hid hA
    simp only [ne_eq, ite_not] at hurl
    simp only [NewGitLabClient, htok]
    simp [gitlabNewClient, hurl, hid, hA]
  · intro lib conf env tok n htok hurl hid hA
    simp only [ne_eq, ite_not] at hurl
    simp only [NewGitLabClient, htok]
    simp [gitlabNewClient, hurl, hid, hA]
  · intro lib conf env
    unfold NewGitLabClient
    cases h : getGitlabAccessToken conf env with
    | error e => rfl
    | ok tok =>
      simp only [gitlabNewClient]
      cases hn : lib.newClientErr
          (if conf.Url ≠ "" then conf.Url else "https://git.mydomain.com/api/v4") with
      | some cause => simp [hn]
      | none =>
        by_cases hid : conf.ID = ""
        · simp [hn, hid]
        · cases hA : Atoi conf.ID <;> simp [hn, hid, hA]

/-- C7, witness for the amended theorem: the three identity-field fixtures
("" / "abc" / "7") under the accepting library oracle, and the empty call list
on the counterexample's rejecting oracle as well. -/
theorem factory_identity_resolution_witness :
    (∃ g, NewGitLabClient libOK confUnset envNone = (Except.ok g, []) ∧ g.ID = 0) ∧
    NewGitLabClient libOK confBadID envNone
      = (Except.error (SyncError.invalidID "abc"), []) ∧
    (∃ g, NewGitLabClient libOK confID7 envNone = (Except.ok g, []) ∧ g.ID = 7) ∧
    (NewGitLabClient libStrict confBadUrl envNone).2 = [] :=
  ⟨factory_identity_resolution.1 libOK confUnset envNone "tok" rfl rfl rfl,
   factory_identity_resolution.2.1 libOK confBadID envNone "tok" rfl rfl
     (by decide) (by decide),
   factory_identity_resolution.2.2.1 libOK confID7 envNone "tok" 7 rfl rfl
     (by decide) (by decide),
   factory_identity_resolution.2.2.2 libStrict confBadUrl envNone⟩

/-- C8: `GetSnippet` and `UploadSnippet` take value receivers and never write
the receiver back, so after any sequence of fetches and pushes the caller's
client — its API client and its `ID` — is exactly the value the factory
produced, even when a push performed a successful create. -/
theorem client_never_mutated (conf : GitLabConfig) (t : Transport)
    (g : GitLabClient) (ops : List Op) :
    (runOps conf t g ops).1 = g ∧ (runOps conf t g ops).1.ID = g.ID := by
  induction ops with
  | nil => exact ⟨rfl, rfl⟩
  | cons op rest ih => simpa [runOps] using ih

/-- C9: when the metadata request returns an error, the code reads
`res.StatusCode` without a nil check — with no accompanying response the error
branch is a nil-pointer dereference, while with any response present it is
total (an error return, never a dereference). -/
theorem fetch_error_branch_nil_response :
    (∀ (g : GitLabClient) (conf : GitLabConfig) (t : Transport) (e : String),
        g.ID ≠ 0 →
        (t.GetSnippet g.ID).err = some e →
        (t.GetSnippet g.ID).response = none →
        (g.GetSnippet conf t).1 = Outcome.nilDeref) ∧
    (∀ (g : GitLabClient) (conf : GitLabConfig) (t : Transport)
        (e : String) (res : HttpResponse), g.ID ≠ 0 →
        (t.GetSnippet g.ID).err = some e →
        (t.GetSnippet g.ID).response = some res →
        (g.GetSnippet conf t).1 ≠ Outcome.nilDeref) := by
  constructor
  · intro g conf t e hid herr hres
    simp [GitLabClient.GetSnippet, hid, herr, hres]
  · intro g conf t e res hid herr hres
    by_cases h404 : res.StatusCode = 404 <;>
      simp [GitLabClient.GetSnippet, hid, herr, hres, h404]

/-- C9, witness: a transport-level failure (error, nil response) crashes the
error branch; the same failure with a 404 response does not. -/
theorem fetch_error_branch_nil_response_witness :
    (client7.GetSnippet confUnset transportNilResponse).1 = Outcome.nilDeref ∧
    (client7.GetSnippet confUnset transport404).1 ≠ Outcome.nilDeref :=
  ⟨fetch_error_branch_nil_response.1 client7 confUnset transportNilResponse
      "connection refused" (by decide) rfl rfl,
   fetch_error_branch_nil_response.2 client7 confUnset transport404
      "404 Not Found" { StatusCode := 404 } (by decide) rfl rfl⟩

/-- C10: on the success path `GetSnippet` dereferences the metadata's
`UpdatedAt` pointer without a nil check — with the filename matching and a
non-empty payload, a nil timestamp is a nil-pointer dereference, while a
present timestamp makes the fetch well-defined (never a dereference). -/
theorem fetch_success_requires_timestamp :
    (∀ (g : GitLabClient) (conf : GitLabConfig) (t : Transport)
        (meta : SnippetMeta), g.ID ≠ 0 →
        (t.GetSnippet g.ID).err = none →
        (t.GetSnippet g.ID).snippet = some meta →
        meta.FileName = conf.FileName →
        (t.SnippetContent g.ID).err = none →
        (t.SnippetContent g.ID).content ≠ "" →
        meta.UpdatedAt = none →
        (g.GetSnippet conf t).1 = Outcome.nilDeref) ∧
    (∀ (g : GitLabClient) (conf : GitLabConfig) (t : Transport)
        (meta : SnippetMeta) (ts : Nat), g.ID ≠ 0 →
        (t.GetSnippet g.ID).err = none →
        (t.GetSnippet g.ID).snippet = some meta →
        meta.FileName = conf.FileName →
        (t.SnippetContent g.ID).err = none →
        (t.SnippetContent g.ID).content ≠ "" →
        meta.UpdatedAt = some ts →
        (g.GetSnippet conf t).1 ≠ Outcome.nilDeref) := by
  constructor
  · intro g conf t meta hid herr hmeta hfn hcerr hc hts
    simp [GitLabClient.GetSnippet, hid, herr, hmeta, hfn, hcerr, hc, hts]
  · intro g conf t meta ts hid herr hmeta hfn hcerr hc hts
    simp [GitLabClient.GetSnippet, hid, herr, hmeta, hfn, hcerr, hc, hts]

/-- C10, witness: identity 7 against a remote whose metadata has no
last-modified timestamp crashes; with timestamp 99 present it does not. -/
theorem fetch_success_requires_timestamp_witness :
    (client7.GetSnippet confUnset transportNoTimestamp).1 = Outcome.nilDeref ∧
    (client7.GetSnippet confUnset transportOK).1 ≠ Outcome.nilDeref :=
  ⟨fetch_success_requires_timestamp.1 client7 confUnset transportNoTimestamp
      { FileName := "pet-snippet.toml", UpdatedAt := none }
      (by decide) rfl rfl rfl rfl (by decide) rfl,
   fetch_success_requires_timestamp.2 client7 confUnset transportOK
      { FileName := "pet-snippet.toml", UpdatedAt := some 99 } 99
      (by decide) rfl rfl rfl rfl (by decide) rfl⟩

end PetSync
